import Mathlib

/-!
Verification of the product-management CRUD service
(`src/main/python/app.py`) against its specification.

The service keeps a single relational table `products` and exposes
create / read / update / delete handlers plus two health endpoints.
We embed the table as a list of rows together with the auto-increment
counter for the primary key, and each HTTP handler as a pure function
from its (already JSON-parsed) input and the database state to a
response value and the successor state.  Prices travel as `Rat`,
mirroring the `Decimal` values that the JSON layer hands to the
handlers; the `float(...)` casts in the handlers are value-preserving
in this model.  Pydantic request validation, which runs before a
handler body, is embedded as an explicit validation function per
request schema.
-/

namespace ProductAPI

/-- A row of the `products` table (class `Product`, app.py lines 41-47):
integer primary key `id`, unique `name`, nullable `description`, and a
numeric `price`. -/
structure Product where
  id : Nat
  name : String
  description : Option String
  price : Rat
  deriving DecidableEq, Repr

/-- The persistent state seen by the handlers: the rows of the
`products` table in insertion order, plus the next value of the
auto-increment primary-key sequence. -/
structure DBState where
  rows : List Product
  nextId : Nat
  deriving DecidableEq, Repr

/-- The raw `price` field of a JSON request body: either a value that
the JSON layer successfully coerced to `Decimal`, or one that is not
numeric (coercion fails, pydantic reports a type error). -/
inductive RawPrice where
  | num (v : Rat)
  | nonNumeric
  deriving DecidableEq, Repr

/-- A raw `POST /products` request body before pydantic validation:
`name` string, optional `description` (absent encodes pydantic's
`None` default, app.py line 52), and a raw `price` field. -/
structure CreateBody where
  name : String
  description : Option String
  price : RawPrice
  deriving DecidableEq, Repr

/-- A validated `ProductCreate` (app.py lines 55-66): the name has been
trimmed by `validate_name` and the price accepted by `validate_price`. -/
structure ProductCreate where
  name : String
  description : Option String
  price : Rat
  deriving DecidableEq, Repr

/-- A raw `PUT /products/name/{name}` body before validation:
both fields optional (class `ProductUpdate`, app.py lines 68-76). -/
structure UpdateBody where
  description : Option String
  price : Option RawPrice
  deriving DecidableEq, Repr

/-- A validated `ProductUpdate`. -/
structure ProductUpdate where
  description : Option String
  price : Option Rat
  deriving DecidableEq, Repr

/-- Python `str.strip()`: remove leading and trailing whitespace. -/
def strip (s : String) : String :=
  String.mk (((s.data.dropWhile Char.isWhitespace).reverse.dropWhile
    Char.isWhitespace).reverse)

/-- Pydantic validation of `ProductCreate` (app.py lines 55-66):
`validate_name` rejects a name that is empty or whitespace-only and
returns `v.strip()`; the `Decimal` coercion rejects a non-numeric
price; `validate_price` rejects a negative price.  No other constraint
is declared on the schema: in particular there is no maximum length on
`name` or `description`. -/
def validateCreate (b : CreateBody) : Option ProductCreate :=
  match b.price with
  | RawPrice.nonNumeric => none
  | RawPrice.num v =>
    if strip b.name = "" then none
    else if v < 0 then none
    else some ⟨strip b.name, b.description, v⟩

/-- Pydantic validation of `ProductUpdate` (app.py lines 68-76):
a present price must be numeric and non-negative; both fields may be
absent. -/
def validateUpdate (b : UpdateBody) : Option ProductUpdate :=
  match b.price with
  | some RawPrice.nonNumeric => none
  | some (RawPrice.num v) =>
    if v < 0 then none else some ⟨b.description, some v⟩
  | none => some ⟨b.description, none⟩

/-- The JSON object returned by the two single-product GET handlers
(app.py lines 114-119 and 137-142). -/
structure ProductJson where
  id : Nat
  name : String
  description : Option String
  price : Rat
  deriving DecidableEq, Repr

/-- Outcome of a single-product GET handler. -/
inductive GetResult where
  | ok (p : ProductJson)
  | notFound
  deriving DecidableEq, Repr

/-- HTTP status carried by a `GetResult`. -/
def GetResult.status : GetResult → Nat
  | .ok _ => 200
  | .notFound => 404

/-- Handler `get_product_by_id` (app.py lines 105-126): first row with
the given id, else 404. -/
def get_product_by_id (product_id : Nat) (s : DBState) : GetResult :=
  match s.rows.find? (fun p => p.id == product_id) with
  | some p => GetResult.ok ⟨p.id, p.name, p.description, p.price⟩
  | none => GetResult.notFound

/-- Handler `get_product_by_name` (app.py lines 128-149): first row with
the given name, else 404. -/
def get_product_by_name (product_name : String) (s : DBState) : GetResult :=
  match s.rows.find? (fun p => p.name == product_name) with
  | some p => GetResult.ok ⟨p.id, p.name, p.description, p.price⟩
  | none => GetResult.notFound

/-- Outcome of the create pipeline: 201 with the success body
`(msg, id, name)`, 409 on a duplicate name, or 422 when pydantic
rejects the body before the handler runs. -/
inductive CreateResult where
  | created (msg : String) (id : Nat) (name : String)
  | conflict
  | validationError
  deriving DecidableEq, Repr

/-- HTTP status carried by a `CreateResult`. -/
def CreateResult.status : CreateResult → Nat
  | .created _ _ _ => 201
  | .conflict => 409
  | .validationError => 422

/-- Handler `create_product` (app.py lines 151-183) on an
already-validated body: pre-check the name for uniqueness (409 on a
hit), otherwise insert a fresh row whose id is drawn from the
auto-increment sequence, commit, and return the 201 body. -/
def create_product (p : ProductCreate) (s : DBState) : CreateResult × DBState :=
  match s.rows.find? (fun r => r.name == p.name) with
  | some _ => (CreateResult.conflict, s)
  | none =>
    let new_product : Product := ⟨s.nextId, p.name, p.description, p.price⟩
    (CreateResult.created "Product created successfully" new_product.id new_product.name,
     ⟨s.rows ++ [new_product], s.nextId + 1⟩)

/-- The full `POST /products` pipeline: pydantic validation, then the
handler. -/
def createEndpoint (b : CreateBody) (s : DBState) : CreateResult × DBState :=
  match validateCreate b with
  | none => (CreateResult.validationError, s)
  | some p => create_product p s

/-- Outcome of the delete handler: 200 with `(msg, id, name)` of the
deleted record, or 404. -/
inductive DeleteResult where
  | deleted (msg : String) (id : Nat) (name : String)
  | notFound
  deriving DecidableEq, Repr

/-- HTTP status carried by a `DeleteResult`. -/
def DeleteResult.status : DeleteResult → Nat
  | .deleted _ _ _ => 200
  | .notFound => 404

/-- Remove the first element satisfying `p` (the effect of
`db.delete(product)` on the row returned by `.first()`). -/
def removeFirst (p : Product → Bool) : List Product → List Product
  | [] => []
  | r :: rs => if p r then rs else r :: removeFirst p rs

/-- Handler `delete_product` (app.py lines 185-208): find the first row
with the given id; 404 if absent, otherwise delete that row, commit,
and return its id and name. -/
def delete_product (product_id : Nat) (s : DBState) : DeleteResult × DBState :=
  match s.rows.find? (fun p => p.id == product_id) with
  | none => (DeleteResult.notFound, s)
  | some p =>
    (DeleteResult.deleted "Product deleted successfully" product_id p.name,
     ⟨removeFirst (fun r => r.id == product_id) s.rows, s.nextId⟩)

/-- Outcome of the update handler: the bare `{"msg": "No fields to
update"}` body, the 200 success body with its `updated_fields` list,
or 404. -/
inductive UpdateResult where
  | noFields
  | updated (msg : String) (id : Nat) (name : String) (updated_fields : List String)
  | notFound
  deriving DecidableEq, Repr

/-- HTTP status carried by an `UpdateResult`. -/
def UpdateResult.status : UpdateResult → Nat
  | .noFields => 200
  | .updated _ _ _ _ => 200
  | .notFound => 404

/-- Replace the first element satisfying `p` by its image under `f`
(the effect of mutating the row returned by `.first()` and
committing). -/
def replaceFirst (p : Product → Bool) (f : Product → Product) : List Product → List Product
  | [] => []
  | r :: rs => if p r then f r :: rs else r :: replaceFirst p f rs

/-- The in-place field assignments of `update_product_by_name`
(app.py lines 223-228): overwrite `description` when supplied,
then `price` when supplied. -/
def applyUpdate (u : ProductUpdate) (r : Product) : Product :=
  let r1 := match u.description with
    | some d => { r with description := some d }
    | none => r
  match u.price with
  | some v => { r1 with price := v }
  | none => r1

/-- The `updates` list built by `update_product_by_name`
(app.py lines 222-228): `"description"` appended first when that field
is present, then `"price"`. -/
def updatedFields (u : ProductUpdate) : List String :=
  (match u.description with | some _ => ["description"] | none => []) ++
  (match u.price with | some _ => ["price"] | none => [])

/-- Handler `update_product_by_name` (app.py lines 210-247) on an
already-validated body.  Returns the response, the successor state,
and whether `db.commit()` was issued: 404 when no row bears the name;
the bare no-fields message, without a commit, when the body supplies
neither field; otherwise the mutated first matching row is committed
and the success body lists the updated fields. -/
def update_product_by_name (product_name : String) (update : ProductUpdate)
    (s : DBState) : UpdateResult × DBState × Bool :=
  match s.rows.find? (fun p => p.name == product_name) with
  | none => (UpdateResult.notFound, s, false)
  | some product =>
    if updatedFields update = [] then
      (UpdateResult.noFields, s, false)
    else
      (UpdateResult.updated "Product updated successfully" product.id product.name
        (updatedFields update),
       ⟨replaceFirst (fun p => p.name == product_name) (applyUpdate update) s.rows,
        s.nextId⟩,
       true)

/-- The service version from `API_CONFIG` (app.py line 35). -/
def apiVersion : String := "1.0.0"

/-- The literal timestamp string both health handlers return
(app.py lines 255 and 271). -/
def healthTimestamp : String := "2025-01-23T18:48:44Z"

/-- Body of the `/health` response (app.py lines 252-256). -/
structure HealthResponse where
  status : String
  version : String
  timestamp : String
  deriving DecidableEq, Repr

/-- Handler `health_check` (app.py lines 249-256): a constant 200
response; the handler body touches no dependency and cannot fail. -/
def health_check : Nat × HealthResponse :=
  (200, ⟨"healthy", apiVersion, healthTimestamp⟩)

/-- Body of the successful `/health/detailed` response
(app.py lines 267-272). -/
structure DetailedHealthResponse where
  status : String
  database : String
  version : String
  timestamp : String
  deriving DecidableEq, Repr

/-- Outcome of `detailed_health_check`: the 200 body, or the 503 raised
when probing the database fails. -/
inductive DetailedHealthResult where
  | ok (r : DetailedHealthResponse)
  | unavailable
  deriving DecidableEq, Repr

/-- HTTP status carried by a `DetailedHealthResult`. -/
def DetailedHealthResult.status : DetailedHealthResult → Nat
  | .ok _ => 200
  | .unavailable => 503

/-- Handler `detailed_health_check` (app.py lines 258-278), indexed by
whether the `SELECT 1` probe of the database succeeds. -/
def detailed_health_check (dbReachable : Bool) : DetailedHealthResult :=
  if dbReachable then
    DetailedHealthResult.ok ⟨"healthy", "connected", apiVersion, healthTimestamp⟩
  else
    DetailedHealthResult.unavailable

/-! ## Helper lemmas -/

/-- A successful `find?` splits the list at the first hit. -/
theorem find?_split {α : Type _} {p : α → Bool} {l : List α} {a : α}
    (h : l.find? p = some a) :
    ∃ l₁ l₂, l = l₁ ++ a :: l₂ ∧ (∀ x ∈ l₁, p x = false) ∧ p a = true := by
  induction l with
  | nil => simp [List.find?] at h
  | cons x xs ih =>
    cases hx : p x with
    | true =>
      rw [List.find?_cons, hx] at h
      cases h
      exact ⟨[], xs, rfl, by simp, hx⟩
    | false =>
      rw [List.find?_cons, hx] at h
      obtain ⟨l₁, l₂, hl, h₁, ha⟩ := ih h
      refine ⟨x :: l₁, l₂, by rw [hl]; rfl, ?_, ha⟩
      intro y hy
      rcases List.mem_cons.mp hy with rfl | hy'
      · exact hx
      · exact h₁ y hy'

/-- `replaceFirst` rewrites exactly the first hit of the split. -/
theorem replaceFirst_split (p : Product → Bool) (f : Product → Product)
    (l₁ l₂ : List Product) (a : Product)
    (h₁ : ∀ x ∈ l₁, p x = false) (ha : p a = true) :
    replaceFirst p f (l₁ ++ a :: l₂) = l₁ ++ f a :: l₂ := by
  induction l₁ with
  | nil => simp [replaceFirst, ha]
  | cons x xs ih =>
    have hx : p x = false := h₁ x (List.mem_cons_self x xs)
    simp only [List.cons_append, replaceFirst, hx, Bool.false_eq_true, if_false]
    exact congrArg (List.cons x) (ih (fun y hy => h₁ y (List.mem_cons_of_mem x hy)))

/-- `removeFirst` drops exactly the first hit of the split. -/
theorem removeFirst_split (p : Product → Bool)
    (l₁ l₂ : List Product) (a : Product)
    (h₁ : ∀ x ∈ l₁, p x = false) (ha : p a = true) :
    removeFirst p (l₁ ++ a :: l₂) = l₁ ++ l₂ := by
  induction l₁ with
  | nil => simp [removeFirst, ha]
  | cons x xs ih =>
    have hx : p x = false := h₁ x (List.mem_cons_self x xs)
    simp only [List.cons_append, removeFirst, hx, Bool.false_eq_true, if_false]
    exact congrArg (List.cons x) (ih (fun y hy => h₁ y (List.mem_cons_of_mem x hy)))

/-- Two members of a list with duplicate-free images under `f` that
agree under `f` are equal. -/
theorem eq_of_map_nodup {α β : Type _} (f : α → β) {l : List α}
    (h : (l.map f).Nodup) {a b : α} (ha : a ∈ l) (hb : b ∈ l)
    (hf : f a = f b) : a = b := by
  induction l with
  | nil => cases ha
  | cons x xs ih =>
    rw [List.map_cons, List.nodup_cons] at h
    rcases List.mem_cons.mp ha with rfl | ha' <;>
      rcases List.mem_cons.mp hb with rfl | hb'
    · rfl
    · have hm := List.mem_map_of_mem f hb'
      rw [← hf] at hm
      exact absurd hm h.1
    · have hm := List.mem_map_of_mem f ha'
      rw [hf] at hm
      exact absurd hm h.1
    · exact ih h.2 ha' hb'

/-- Shared success lemma for the create pipeline: a body with a numeric
non-negative price and a trimmed name that is non-empty and fresh, run
against a state whose rows do not use the next primary key, inserts
exactly one row, and both single-product reads immediately return that
row. -/
theorem createEndpoint_success (b : CreateBody) (s : DBState) (v : Rat)
    (hnum : b.price = RawPrice.num v) (hnonneg : 0 ≤ v)
    (hne : strip b.name ≠ "")
    (hfresh : ∀ r ∈ s.rows, r.name ≠ strip b.name)
    (hid : ∀ r ∈ s.rows, r.id ≠ s.nextId) :
    createEndpoint b s =
      (CreateResult.created "Product created successfully" s.nextId (strip b.name),
       ⟨s.rows ++ [⟨s.nextId, strip b.name, b.description, v⟩], s.nextId + 1⟩) ∧
    get_product_by_id s.nextId (createEndpoint b s).2 =
      GetResult.ok ⟨s.nextId, strip b.name, b.description, v⟩ ∧
    get_product_by_name (strip b.name) (createEndpoint b s).2 =
      GetResult.ok ⟨s.nextId, strip b.name, b.description, v⟩ := by
  have hv : ¬ v < 0 := not_lt.mpr hnonneg
  have hval : validateCreate b = some ⟨strip b.name, b.description, v⟩ := by
    simp [validateCreate, hnum, hne, hv]
  have hfindname : s.rows.find? (fun r => r.name == strip b.name) = none :=
    List.find?_eq_none.mpr (fun r hr => by simp [hfresh r hr])
  have hfindid : s.rows.find? (fun r : Product => r.id == s.nextId) = none :=
    List.find?_eq_none.mpr (fun r hr => by simp [hid r hr])
  have hmain : createEndpoint b s =
      (CreateResult.created "Product created successfully" s.nextId (strip b.name),
       ⟨s.rows ++ [⟨s.nextId, strip b.name, b.description, v⟩], s.nextId + 1⟩) := by
    simp [createEndpoint, hval, create_product, hfindname]
  refine ⟨hmain, ?_, ?_⟩
  · rw [hmain]
    simp [get_product_by_id, List.find?_append, hfindid, List.find?_cons]
  · rw [hmain]
    simp [get_product_by_name, List.find?_append, hfindname, List.find?_cons]

/-- C1: a create request whose trimmed name is not already in the
products table and whose price is numeric and non-negative succeeds
with status 201 and the success body; the new row is stored with
exactly the validated field values; and an immediately subsequent
get-by-id with the returned id and get-by-name with the returned name
each return a product object whose name, description, and price equal
the stored values. -/
theorem create_unique_name_roundtrip (b : CreateBody) (s : DBState) (v : Rat)
    (hnum : b.price = RawPrice.num v) (hnonneg : 0 ≤ v)
    (hne : strip b.name ≠ "")
    (hfresh : ∀ r ∈ s.rows, r.name ≠ strip b.name)
    (hid : ∀ r ∈ s.rows, r.id ≠ s.nextId) :
    (createEndpoint b s).1.status = 201 ∧
    (createEndpoint b s).1 =
      CreateResult.created "Product created successfully" s.nextId (strip b.name) ∧
    (createEndpoint b s).2.rows =
      s.rows ++ [⟨s.nextId, strip b.name, b.description, v⟩] ∧
    get_product_by_id s.nextId (createEndpoint b s).2 =
      GetResult.ok ⟨s.nextId, strip b.name, b.description, v⟩ ∧
    get_product_by_name (strip b.name) (createEndpoint b s).2 =
      GetResult.ok ⟨s.nextId, strip b.name, b.description, v⟩ := by
  obtain ⟨hmain, hgid, hgname⟩ :=
    createEndpoint_success b s v hnum hnonneg hne hfresh hid
  refine ⟨?_, ?_, ?_, hgid, hgname⟩
  · rw [hmain]
    rfl
  · rw [hmain]
  · rw [hmain]

/-- Witness for C1 at a concrete input: one unrelated row in the table,
a name that needs trimming, and an integral price. -/
theorem create_unique_name_roundtrip_witness :
    ((⟨" Pen ", some "Blue ink pen", RawPrice.num 10⟩ : CreateBody).price =
      RawPrice.num 10) ∧
    (0 : Rat) ≤ 10 ∧
    strip " Pen " ≠ "" ∧
    (∀ r ∈ ([⟨1, "Other", none, 3⟩] : List Product), r.name ≠ strip " Pen ") ∧
    (∀ r ∈ ([⟨1, "Other", none, 3⟩] : List Product),
      r.id ≠ (⟨[⟨1, "Other", none, 3⟩], 2⟩ : DBState).nextId) ∧
    ((createEndpoint ⟨" Pen ", some "Blue ink pen", RawPrice.num 10⟩
        ⟨[⟨1, "Other", none, 3⟩], 2⟩).1.status = 201 ∧
     (createEndpoint ⟨" Pen ", some "Blue ink pen", RawPrice.num 10⟩
        ⟨[⟨1, "Other", none, 3⟩], 2⟩).1 =
       CreateResult.created "Product created successfully" 2 (strip " Pen ") ∧
     (createEndpoint ⟨" Pen ", some "Blue ink pen", RawPrice.num 10⟩
        ⟨[⟨1, "Other", none, 3⟩], 2⟩).2.rows =
       [⟨1, "Other", none, 3⟩] ++ [⟨2, strip " Pen ", some "Blue ink pen", 10⟩] ∧
     get_product_by_id 2 (createEndpoint ⟨" Pen ", some "Blue ink pen", RawPrice.num 10⟩
        ⟨[⟨1, "Other", none, 3⟩], 2⟩).2 =
       GetResult.ok ⟨2, strip " Pen ", some "Blue ink pen", 10⟩ ∧
     get_product_by_name (strip " Pen ")
        (createEndpoint ⟨" Pen ", some "Blue ink pen", RawPrice.num 10⟩
          ⟨[⟨1, "Other", none, 3⟩], 2⟩).2 =
       GetResult.ok ⟨2, strip " Pen ", some "Blue ink pen", 10⟩) :=
  ⟨rfl, by decide, by decide, by decide, by decide,
   create_unique_name_roundtrip ⟨" Pen ", some "Blue ink pen", RawPrice.num 10⟩
     ⟨[⟨1, "Other", none, 3⟩], 2⟩ 10 rfl (by decide) (by decide) (by decide) (by decide)⟩

/-- C2 (evaluation at the failing inputs): the `ProductCreate` schema
declares no maximum length, so a create body with a 121-character name,
and likewise one with a 256-character description, pass validation and
are inserted with status 201 instead of being rejected with 422.  The
repository's own tests (`test_product_name_length_validation` and
`test_product_description_length_validation`) expect both bodies to be
rejected. -/
theorem create_accepts_overlong_fields :
    (createEndpoint ⟨String.mk (List.replicate 121 'a'), some "d", RawPrice.num 10⟩
        ⟨[], 1⟩).1 =
      CreateResult.created "Product created successfully" 1
        (String.mk (List.replicate 121 'a')) ∧
    (createEndpoint ⟨String.mk (List.replicate 121 'a'), some "d", RawPrice.num 10⟩
        ⟨[], 1⟩).2.rows.length = 1 ∧
    (createEndpoint ⟨"Valid", some (String.mk (List.replicate 256 'b')), RawPrice.num 10⟩
        ⟨[], 1⟩).1.status = 201 ∧
    (createEndpoint ⟨"Valid", some (String.mk (List.replicate 256 'b')), RawPrice.num 10⟩
        ⟨[], 1⟩).2.rows.length = 1 := by
  decide

/-- C3: a validated create body whose (trimmed) name equals the name of
a row already in the table is answered with 409 and the state — every
existing row and the id sequence — is left unchanged, so no row is
inserted. -/
theorem create_duplicate_name_conflict (b : CreateBody) (p : ProductCreate)
    (s : DBState) (r : Product)
    (hval : validateCreate b = some p) (hr : r ∈ s.rows) (hname : r.name = p.name) :
    (createEndpoint b s).1 = CreateResult.conflict ∧
    (createEndpoint b s).1.status = 409 ∧
    (createEndpoint b s).2 = s := by
  have hne : s.rows.find? (fun x => x.name == p.name) ≠ none := by
    intro hnone
    exact absurd hname (by simpa using List.find?_eq_none.mp hnone r hr)
  cases hfind : s.rows.find? (fun x => x.name == p.name) with
  | none => exact absurd hfind hne
  | some x =>
    refine ⟨?_, ?_, ?_⟩ <;>
      simp [createEndpoint, hval, create_product, hfind, CreateResult.status]

/-- Witness for C3 at a concrete input: the table already holds a row
named Pen and the body re-submits Pen. -/
theorem create_duplicate_name_conflict_witness :
    validateCreate ⟨"Pen", some "again", RawPrice.num 5⟩ =
      some ⟨"Pen", some "again", 5⟩ ∧
    (⟨1, "Pen", some "first", 10⟩ : Product) ∈
      ([⟨1, "Pen", some "first", 10⟩] : List Product) ∧
    (⟨1, "Pen", some "first", 10⟩ : Product).name =
      (⟨"Pen", some "again", (5 : Rat)⟩ : ProductCreate).name ∧
    ((createEndpoint ⟨"Pen", some "again", RawPrice.num 5⟩
        ⟨[⟨1, "Pen", some "first", 10⟩], 2⟩).1 = CreateResult.conflict ∧
     (createEndpoint ⟨"Pen", some "again", RawPrice.num 5⟩
        ⟨[⟨1, "Pen", some "first", 10⟩], 2⟩).1.status = 409 ∧
     (createEndpoint ⟨"Pen", some "again", RawPrice.num 5⟩
        ⟨[⟨1, "Pen", some "first", 10⟩], 2⟩).2 = ⟨[⟨1, "Pen", some "first", 10⟩], 2⟩) :=
  ⟨by decide, by decide, by decide,
   create_duplicate_name_conflict ⟨"Pen", some "again", RawPrice.num 5⟩
     ⟨"Pen", some "again", 5⟩ ⟨[⟨1, "Pen", some "first", 10⟩], 2⟩
     ⟨1, "Pen", some "first", 10⟩ (by decide) (by decide) (by decide)⟩

/-- C9 (counterexample): a create body that omits `description` is
stored and read back with a null description, not the empty string the
claim predicts. -/
theorem omitted_description_not_empty_string :
    get_product_by_id 1 (createEndpoint ⟨"Pen", none, RawPrice.num 10⟩ ⟨[], 1⟩).2 =
      GetResult.ok ⟨1, "Pen", none, 10⟩ ∧
    get_product_by_id 1 (createEndpoint ⟨"Pen", none, RawPrice.num 10⟩ ⟨[], 1⟩).2 ≠
      GetResult.ok ⟨1, "Pen", some "", 10⟩ := by
  decide

/-- C9 (amended): a create body that omits `description` stores a null
description — pydantic defaults the field to `None` and the column is
nullable — so a subsequent get-by-id returns a null description. -/
theorem omitted_description_reads_null (b : CreateBody) (s : DBState) (v : Rat)
    (hdesc : b.description = none)
    (hnum : b.price = RawPrice.num v) (hnonneg : 0 ≤ v)
    (hne : strip b.name ≠ "")
    (hfresh : ∀ r ∈ s.rows, r.name ≠ strip b.name)
    (hid : ∀ r ∈ s.rows, r.id ≠ s.nextId) :
    get_product_by_id s.nextId (createEndpoint b s).2 =
      GetResult.ok ⟨s.nextId, strip b.name, none, v⟩ := by
  have h := (createEndpoint_success b s v hnum hnonneg hne hfresh hid).2.1
  rw [hdesc] at h
  exact h

/-- Witness for the amended C9 at a concrete input. -/
theorem omitted_description_reads_null_witness :
    ((⟨"Pen", none, RawPrice.num 10⟩ : CreateBody).description = none) ∧
    ((⟨"Pen", none, RawPrice.num 10⟩ : CreateBody).price = RawPrice.num 10) ∧
    (0 : Rat) ≤ 10 ∧
    strip "Pen" ≠ "" ∧
    (∀ r ∈ ([] : List Product), r.name ≠ strip "Pen") ∧
    (∀ r ∈ ([] : List Product), r.id ≠ 1) ∧
    get_product_by_id 1 (createEndpoint ⟨"Pen", none, RawPrice.num 10⟩ ⟨[], 1⟩).2 =
      GetResult.ok ⟨1, strip "Pen", none, 10⟩ :=
  ⟨rfl, rfl, by decide, by decide, by decide, by decide,
   omitted_description_reads_null ⟨"Pen", none, RawPrice.num 10⟩ ⟨[], 1⟩ 10
     rfl rfl (by decide) (by decide) (by decide) (by decide)⟩

/-- C4: updating an existing product touches only the fields supplied
in the body.  The response repeats the row's unchanged id and name and
lists exactly the supplied fields, description before price; in
storage only the first row bearing the name changes, its id and name
are kept, its description changes exactly when the body supplies one,
its price exactly when the body supplies one, and every other row is
untouched. -/
theorem update_touches_only_supplied (n : String) (u : ProductUpdate) (s : DBState)
    (r : Product)
    (hfind : s.rows.find? (fun p => p.name == n) = some r)
    (hsome : u.description.isSome ∨ u.price.isSome) :
    (update_product_by_name n u s).1 =
      UpdateResult.updated "Product updated successfully" r.id r.name
        ((if u.description.isSome then ["description"] else []) ++
         (if u.price.isSome then ["price"] else [])) ∧
    ∃ l₁ l₂,
      s.rows = l₁ ++ r :: l₂ ∧
      (∀ x ∈ l₁, x.name ≠ n) ∧
      (update_product_by_name n u s).2.1.rows =
        l₁ ++ (⟨r.id, r.name,
          (match u.description with | some d => some d | none => r.description),
          (match u.price with | some w => w | none => r.price)⟩ : Product) :: l₂ := by
  obtain ⟨l₁, l₂, hl, h₁, ha⟩ := find?_split hfind
  have hx : ∀ x ∈ l₁, x.name ≠ n := fun x hmem => by simpa using h₁ x hmem
  have hrepl : ∀ f, replaceFirst (fun p => p.name == n) f s.rows = l₁ ++ f r :: l₂ := by
    intro f
    rw [hl]
    exact replaceFirst_split _ f l₁ l₂ r h₁ ha
  obtain ⟨ud, up⟩ := u
  cases ud with
  | none =>
    cases up with
    | none => simp at hsome
    | some w =>
      refine ⟨?_, l₁, l₂, hl, hx, ?_⟩
      · simp [update_product_by_name, hfind, updatedFields]
      · simp [update_product_by_name, hfind, updatedFields, hrepl, applyUpdate]
  | some d =>
    cases up with
    | none =>
      refine ⟨?_, l₁, l₂, hl, hx, ?_⟩
      · simp [update_product_by_name, hfind, updatedFields]
      · simp [update_product_by_name, hfind, updatedFields, hrepl, applyUpdate]
    | some w =>
      refine ⟨?_, l₁, l₂, hl, hx, ?_⟩
      · simp [update_product_by_name, hfind, updatedFields]
      · simp [update_product_by_name, hfind, updatedFields, hrepl, applyUpdate]

/-- Witness for C4 at a concrete input: a one-row table updated with a
price-only body. -/
theorem update_touches_only_supplied_witness :
    ([⟨1, "Notebook", some "Lined", 15⟩] : List Product).find?
      (fun p => p.name == "Notebook") = some ⟨1, "Notebook", some "Lined", 15⟩ ∧
    ((⟨none, some 20⟩ : ProductUpdate).description.isSome ∨
      (⟨none, some 20⟩ : ProductUpdate).price.isSome) ∧
    ((update_product_by_name "Notebook" ⟨none, some 20⟩
        ⟨[⟨1, "Notebook", some "Lined", 15⟩], 2⟩).1 =
      UpdateResult.updated "Product updated successfully" 1 "Notebook"
        ((if (⟨none, some 20⟩ : ProductUpdate).description.isSome
            then ["description"] else []) ++
         (if (⟨none, some 20⟩ : ProductUpdate).price.isSome then ["price"] else [])) ∧
     ∃ l₁ l₂,
       ([⟨1, "Notebook", some "Lined", 15⟩] : List Product) =
         l₁ ++ (⟨1, "Notebook", some "Lined", 15⟩ : Product) :: l₂ ∧
       (∀ x ∈ l₁, x.name ≠ "Notebook") ∧
       (update_product_by_name "Notebook" ⟨none, some 20⟩
          ⟨[⟨1, "Notebook", some "Lined", 15⟩], 2⟩).2.1.rows =
         l₁ ++ (⟨1, "Notebook",
           (match (⟨none, some 20⟩ : ProductUpdate).description with
            | some d => some d | none => some "Lined"),
           (match (⟨none, some 20⟩ : ProductUpdate).price with
            | some w => w | none => 15)⟩ : Product) :: l₂) :=
  ⟨by decide, by decide,
   update_touches_only_supplied "Notebook" ⟨none, some 20⟩
     ⟨[⟨1, "Notebook", some "Lined", 15⟩], 2⟩ ⟨1, "Notebook", some "Lined", 15⟩
     (by decide) (by decide)⟩

/-- C6: an update body that supplies neither description nor price on
an existing product returns exactly the no-fields message, leaves the
state unchanged, and issues no commit. -/
theorem update_empty_body_noop (n : String) (u : ProductUpdate) (s : DBState)
    (r : Product)
    (hfind : s.rows.find? (fun p => p.name == n) = some r)
    (hdesc : u.description = none) (hprice : u.price = none) :
    update_product_by_name n u s = (UpdateResult.noFields, s, false) := by
  simp [update_product_by_name, hfind, updatedFields, hdesc, hprice]

/-- Witness for C6 at a concrete input. -/
theorem update_empty_body_noop_witness :
    ([⟨1, "Pen", some "Blue", 10⟩] : List Product).find?
      (fun p => p.name == "Pen") = some ⟨1, "Pen", some "Blue", 10⟩ ∧
    ((⟨none, none⟩ : ProductUpdate).description = none) ∧
    ((⟨none, none⟩ : ProductUpdate).price = none) ∧
    update_product_by_name "Pen" ⟨none, none⟩ ⟨[⟨1, "Pen", some "Blue", 10⟩], 2⟩ =
      (UpdateResult.noFields, ⟨[⟨1, "Pen", some "Blue", 10⟩], 2⟩, false) :=
  ⟨by decide, rfl, rfl,
   update_empty_body_noop "Pen" ⟨none, none⟩ ⟨[⟨1, "Pen", some "Blue", 10⟩], 2⟩
     ⟨1, "Pen", some "Blue", 10⟩ (by decide) rfl rfl⟩

/-- C7: updating a name that no row bears returns 404, leaves every row
of the table unchanged, and issues no commit. -/
theorem update_missing_name_404 (n : String) (u : ProductUpdate) (s : DBState)
    (habs : ∀ r ∈ s.rows, r.name ≠ n) :
    (update_product_by_name n u s).1 = UpdateResult.notFound ∧
    (update_product_by_name n u s).1.status = 404 ∧
    (update_product_by_name n u s).2.1 = s ∧
    (update_product_by_name n u s).2.2 = false := by
  have hfind : s.rows.find? (fun p => p.name == n) = none :=
    List.find?_eq_none.mpr (fun r hr => by simp [habs r hr])
  refine ⟨?_, ?_, ?_, ?_⟩ <;>
    simp [update_product_by_name, hfind, UpdateResult.status]

/-- Witness for C7 at a concrete input. -/
theorem update_missing_name_404_witness :
    (∀ r ∈ ([⟨1, "Pen", some "Blue", 10⟩] : List Product), r.name ≠ "NonExistent") ∧
    ((update_product_by_name "NonExistent" ⟨some "New", some 10⟩
        ⟨[⟨1, "Pen", some "Blue", 10⟩], 2⟩).1 = UpdateResult.notFound ∧
     (update_product_by_name "NonExistent" ⟨some "New", some 10⟩
        ⟨[⟨1, "Pen", some "Blue", 10⟩], 2⟩).1.status = 404 ∧
     (update_product_by_name "NonExistent" ⟨some "New", some 10⟩
        ⟨[⟨1, "Pen", some "Blue", 10⟩], 2⟩).2.1 = ⟨[⟨1, "Pen", some "Blue", 10⟩], 2⟩ ∧
     (update_product_by_name "NonExistent" ⟨some "New", some 10⟩
        ⟨[⟨1, "Pen", some "Blue", 10⟩], 2⟩).2.2 = false) :=
  ⟨by decide,
   update_missing_name_404 "NonExistent" ⟨some "New", some 10⟩
     ⟨[⟨1, "Pen", some "Blue", 10⟩], 2⟩ (by decide)⟩

/-- C5: on a table with duplicate-free ids, deleting an existing id
answers 200 with the deleted record's id and name and removes the row,
so that a subsequent get-by-id on that id answers 404; deleting an id
no row bears answers 404 and leaves the state unchanged. -/
theorem delete_roundtrip (pid : Nat) (s : DBState)
    (hnodup : (s.rows.map Product.id).Nodup) :
    (∀ r ∈ s.rows, r.id = pid →
      (delete_product pid s).1 =
        DeleteResult.deleted "Product deleted successfully" pid r.name ∧
      (delete_product pid s).1.status = 200 ∧
      get_product_by_id pid (delete_product pid s).2 = GetResult.notFound) ∧
    ((∀ r ∈ s.rows, r.id ≠ pid) →
      (delete_product pid s).1 = DeleteResult.notFound ∧
      (delete_product pid s).1.status = 404 ∧
      (delete_product pid s).2 = s) := by
  constructor
  · intro r hr hrid
    have hne : s.rows.find? (fun p => p.id == pid) ≠ none := by
      intro hnone
      exact absurd hrid (by simpa using List.find?_eq_none.mp hnone r hr)
    cases hfind : s.rows.find? (fun p => p.id == pid) with
    | none => exact absurd hfind hne
    | some x =>
      have hxid : x.id = pid := by simpa using List.find?_some hfind
      have hxmem : x ∈ s.rows := List.mem_of_find?_eq_some hfind
      have hxr : x = r :=
        eq_of_map_nodup Product.id hnodup hxmem hr (by rw [hxid, hrid])
      obtain ⟨l₁, l₂, hl, h₁, ha⟩ := find?_split hfind
      have hrows : (delete_product pid s).2.rows = l₁ ++ l₂ := by
        simp only [delete_product, hfind]
        rw [hl, removeFirst_split _ l₁ l₂ x h₁ ha]
      have hxnot : x.id ∉ l₂.map Product.id := by
        have hsub : ((x :: l₂).map Product.id).Sublist (s.rows.map Product.id) := by
          rw [hl]
          exact (List.sublist_append_right l₁ (x :: l₂)).map Product.id
        have := hnodup.sublist hsub
        rw [List.map_cons, List.nodup_cons] at this
        exact this.1
      have hno : ∀ y ∈ l₁ ++ l₂, ¬((fun p : Product => p.id == pid) y = true) := by
        intro y hy
        rcases List.mem_append.mp hy with hy1 | hy2
        · simp [h₁ y hy1]
        · have hyne : y.id ≠ pid := by
            intro hyid
            apply hxnot
            have hxy : x.id = y.id := by rw [hxid, hyid]
            rw [hxy]
            exact List.mem_map_of_mem Product.id hy2
          simp [hyne]
      refine ⟨?_, ?_, ?_⟩
      · simp [delete_product, hfind, hxr]
      · simp [delete_product, hfind, DeleteResult.status]
      · simp [get_product_by_id, hrows, List.find?_eq_none.mpr hno]
  · intro habs
    have hfind : s.rows.find? (fun p => p.id == pid) = none :=
      List.find?_eq_none.mpr (fun r hr => by simp [habs r hr])
    refine ⟨?_, ?_, ?_⟩ <;> simp [delete_product, hfind, DeleteResult.status]

/-- Witness for C5 at a concrete input: a two-row table with distinct
ids. -/
theorem delete_roundtrip_witness :
    ((([⟨1, "A", none, 2⟩, ⟨2, "B", some "x", 3⟩] : List Product).map
      Product.id).Nodup) ∧
    ((∀ r ∈ ([⟨1, "A", none, 2⟩, ⟨2, "B", some "x", 3⟩] : List Product), r.id = 1 →
      (delete_product 1 ⟨[⟨1, "A", none, 2⟩, ⟨2, "B", some "x", 3⟩], 3⟩).1 =
        DeleteResult.deleted "Product deleted successfully" 1 r.name ∧
      (delete_product 1 ⟨[⟨1, "A", none, 2⟩, ⟨2, "B", some "x", 3⟩], 3⟩).1.status = 200 ∧
      get_product_by_id 1
        (delete_product 1 ⟨[⟨1, "A", none, 2⟩, ⟨2, "B", some "x", 3⟩], 3⟩).2 =
        GetResult.notFound) ∧
    ((∀ r ∈ ([⟨1, "A", none, 2⟩, ⟨2, "B", some "x", 3⟩] : List Product), r.id ≠ 1) →
      (delete_product 1 ⟨[⟨1, "A", none, 2⟩, ⟨2, "B", some "x", 3⟩], 3⟩).1 =
        DeleteResult.notFound ∧
      (delete_product 1 ⟨[⟨1, "A", none, 2⟩, ⟨2, "B", some "x", 3⟩], 3⟩).1.status = 404 ∧
      (delete_product 1 ⟨[⟨1, "A", none, 2⟩, ⟨2, "B", some "x", 3⟩], 3⟩).2 =
        ⟨[⟨1, "A", none, 2⟩, ⟨2, "B", some "x", 3⟩], 3⟩)) :=
  ⟨by decide,
   delete_roundtrip 1 ⟨[⟨1, "A", none, 2⟩, ⟨2, "B", some "x", 3⟩], 3⟩ (by decide)⟩

/-- C8: the health endpoint is a constant 200 response carrying status,
version, and timestamp, with no failure path; the detailed health
endpoint answers 503 exactly when the database probe fails and
otherwise 200 with database connected. -/
theorem health_endpoints_contract :
    health_check.1 = 200 ∧
    health_check.2 = ⟨"healthy", apiVersion, healthTimestamp⟩ ∧
    ∀ b : Bool,
      ((detailed_health_check b).status = 503 ↔ b = false) ∧
      (detailed_health_check b =
          DetailedHealthResult.ok ⟨"healthy", "connected", apiVersion, healthTimestamp⟩ ↔
        b = true) := by
  refine ⟨rfl, rfl, fun b => ?_⟩
  cases b <;> decide

/-- C10: the timestamp in the health response, and in every successful
detailed health response, is the hard-coded constant
string, independent of any clock. -/
theorem health_timestamp_hardcoded :
    health_check.2.timestamp = "2025-01-23T18:48:44Z" ∧
    ∀ (b : Bool) (r : DetailedHealthResponse),
      detailed_health_check b = DetailedHealthResult.ok r →
      r.timestamp = "2025-01-23T18:48:44Z" := by
  refine ⟨rfl, fun b r h => ?_⟩
  cases b
  · simp [detailed_health_check] at h
  · simp only [detailed_health_check, if_true] at h
    cases h
    rfl

/-- Witness for C10: the successful detailed health response at a
reachable database carries the constant timestamp. -/
theorem health_timestamp_hardcoded_witness :
    (detailed_health_check true =
      DetailedHealthResult.ok ⟨"healthy", "connected", apiVersion, healthTimestamp⟩) ∧
    (⟨"healthy", "connected", apiVersion, healthTimestamp⟩ :
      DetailedHealthResponse).timestamp = "2025-01-23T18:48:44Z" :=
  ⟨rfl, health_timestamp_hardcoded.2 true
    ⟨"healthy", "connected", apiVersion, healthTimestamp⟩ rfl⟩

end ProductAPI
